import Mathlib

/-!
Shallow embedding of the weather-dashboard front end
(`src/assets/js/route.js` and `src/assets/js/app.js`).

JavaScript numbers are modelled by `JSNum` (NaN, the two infinities, and a
finite rational); `parseFloat` is modelled by `jsParseFloat`, which follows
the ECMAScript longest-valid-numeric-literal behaviour on decimal strings.
String splitting (always on a single-character separator in this code base:
`&`, `=`, `?`) is modelled on character lists so that every definition
evaluates by kernel reduction. Handlers are modelled as pure functions from
their inputs to inductives describing the observable action they take
(which callback fires, which fetches are issued, which DOM state
transitions happen).
-/

namespace Weather

/-- A JavaScript number: NaN, +Infinity, -Infinity, or a finite value
(modelled as a rational). -/
inductive JSNum where
  | nan
  | posInf
  | negInf
  | fin (q : ℚ)
deriving DecidableEq, Repr

/-- `isNaN(x)` for a `JSNum`. -/
def JSNum.isNaNum : JSNum → Bool
  | .nan => true
  | _ => false

/-- The JavaScript comparison `x < q` against a finite literal `q`
(false whenever `x` is NaN). -/
def JSNum.ltQ : JSNum → ℚ → Bool
  | .nan, _ => false
  | .posInf, _ => false
  | .negInf, _ => true
  | .fin a, q => a < q

/-- The JavaScript comparison `x > q` against a finite literal `q`
(false whenever `x` is NaN). -/
def JSNum.gtQ : JSNum → ℚ → Bool
  | .nan, _ => false
  | .posInf, _ => true
  | .negInf, _ => false
  | .fin a, q => q < a

/-- `s.split(sep)` of JavaScript for a one-character separator, on
character lists: `"" → [""]`, and a trailing separator yields a trailing
empty piece, as in JavaScript. -/
def splitOnCharList (sep : Char) : List Char → List (List Char)
  | [] => [[]]
  | c :: cs =>
    if c = sep then [] :: splitOnCharList sep cs
    else
      match splitOnCharList sep cs with
      | [] => [[c]]
      | p :: ps => (c :: p) :: ps

/-- `s.split(sep)` for a one-character separator, at the `String` level. -/
def jsSplit (s : String) (sep : Char) : List String :=
  (splitOnCharList sep s.toList).map String.mk

/-- `s.startsWith(p)` of JavaScript. -/
def jsStartsWith (s p : String) : Bool :=
  p.toList.isPrefixOf s.toList

/-- `s.includes(c)` of JavaScript for a one-character search string. -/
def jsIncludesChar (s : String) (c : Char) : Bool :=
  s.toList.contains c

/-- `s.slice(1)` of JavaScript (drop the first character). -/
def jsSlice1 (s : String) : String :=
  String.mk (s.toList.drop 1)

/-! ### `parseFloat` -/

/-- ECMAScript whitespace characters skipped by `parseFloat`. -/
def isJsWhitespace (c : Char) : Bool :=
  c = ' ' || c = '\t' || c = '\n' || c = '\r' || c = '\x0b' || c = '\x0c'

/-- Take the longest run of leading decimal digits, returned as their values. -/
def takeDigits : List Char → List ℕ × List Char
  | [] => ([], [])
  | c :: cs =>
    if c.isDigit then
      let (ds, rest) := takeDigits cs
      ((c.toNat - 48) :: ds, rest)
    else ([], c :: cs)

/-- The natural number denoted by a digit-value list (most significant first). -/
def digitsVal (ds : List ℕ) : ℕ := ds.foldl (fun acc d => 10 * acc + d) 0

/-- The rational denoted by integer digits `ds`, fractional digits `fs` and a
decimal exponent `e`, i.e. `(ds.fs) × 10^e`, built with `Rat.divInt` so that
it evaluates by kernel reduction. -/
def decValue (ds fs : List ℕ) (e : ℤ) : ℚ :=
  let n : ℤ := (digitsVal ds : ℤ) * 10 ^ fs.length + (digitsVal fs : ℤ)
  if 0 ≤ e then Rat.divInt (n * 10 ^ e.toNat) (10 ^ fs.length)
  else Rat.divInt n ((10 : ℤ) ^ fs.length * 10 ^ (-e).toNat)

/-- `decValue` agrees with the textbook reading
`(intPart + fracPart/10^k) · 10^e`. -/
theorem decValue_eq (ds fs : List ℕ) (e : ℤ) :
    decValue ds fs e
      = ((digitsVal ds : ℚ) + (digitsVal fs : ℚ) / (10 : ℚ) ^ fs.length)
        * (10 : ℚ) ^ e := by
  unfold decValue
  have h10 : ((10 : ℚ) ^ fs.length) ≠ 0 := by positivity
  rcases le_or_lt 0 e with he | he
  · rw [if_pos he, Rat.divInt_eq_div]
    have hz : (10 : ℚ) ^ e = (10 : ℚ) ^ e.toNat := by
      rw [← zpow_natCast]
      congr 1
      omega
    rw [hz]
    push_cast
    field_simp
  · rw [if_neg (not_le.mpr he), Rat.divInt_eq_div]
    have hz : (10 : ℚ) ^ e = ((10 : ℚ) ^ (-e).toNat)⁻¹ := by
      rw [← zpow_natCast, ← zpow_neg]
      congr 1
      omega
    rw [hz]
    push_cast
    field_simp

/-- Parse the longest decimal-significand `digits [. digits]` (at least one
digit in total), returning the two digit lists and the rest. -/
def parseSignificand (cs : List Char) : Option ((List ℕ × List ℕ) × List Char) :=
  let (ds, rest) := takeDigits cs
  match rest with
  | '.' :: rest2 =>
    let (fs, rest3) := takeDigits rest2
    if ds = [] && fs = [] then none
    else some ((ds, fs), rest3)
  | _ => if ds = [] then none else some ((ds, []), rest)

/-- Parse an optional exponent `e|E [+|-] digits`; when no digit follows the
marker the exponent is not consumed (as in ECMAScript). -/
def parseExponent (cs : List Char) : ℤ :=
  match cs with
  | c :: rest =>
    if c = 'e' || c = 'E' then
      match rest with
      | '+' :: rest2 => ((digitsVal (takeDigits rest2).1 : ℤ))
      | '-' :: rest2 => -((digitsVal (takeDigits rest2).1 : ℤ))
      | _ => ((digitsVal (takeDigits rest).1 : ℤ))
    else 0
  | [] => 0

/-- Whether the character list starts with the literal `Infinity`. -/
def startsWithInfinity (cs : List Char) : Bool :=
  "Infinity".toList.isPrefixOf cs

/-- The body of `parseFloat` after the optional sign has been consumed. -/
def parseUnsigned (cs : List Char) (neg : Bool) : JSNum :=
  if startsWithInfinity cs then
    if neg then .negInf else .posInf
  else
    match parseSignificand cs with
    | none => .nan
    | some ((ds, fs), rest) =>
      let q := decValue ds fs (parseExponent rest)
      .fin (if neg then -q else q)

/-- Model of JavaScript `parseFloat`: skip whitespace, consume an optional
sign, then the longest `Infinity`-or-decimal literal; NaN when none. -/
def jsParseFloat (s : String) : JSNum :=
  match s.toList.dropWhile isJsWhitespace with
  | '+' :: rest => parseUnsigned rest false
  | '-' :: rest => parseUnsigned rest true
  | cs => parseUnsigned cs false

/-! ## route.js -/

/-- The observable action of the `"/weather"` route handler
(`searchedLocation` in `route.js`): either the error handler `error404`
fires, or `updateWeather` is called with the parsed coordinates. -/
inductive RouteAction where
  | error404
  | updateWeather (lat lon : JSNum)
deriving DecidableEq, Repr

/-- Whether a `RouteAction` issues any network fetch: `error404` issues none;
`updateWeather` begins by issuing the primary current-weather fetch. -/
def RouteAction.issuesFetch : RouteAction → Bool
  | .error404 => false
  | .updateWeather _ _ => true

/-- `params.find(param => param.startsWith(key))`: the first `&`-separated
parameter starting with the given key text. -/
def findParam (params : List String) (key : String) : Option String :=
  params.find? (fun s => jsStartsWith s key)

/-- `param.split("=")[1]`: the text between the first and second `=` of a
parameter (empty when nothing follows the first `=`). -/
def paramValue (param : String) : String :=
  (jsSplit param '=').getD 1 ""

/-- `searchedLocation` (`route.js` lines 29–44): split the query on `&`,
find the first `lat=` and `lon=` parameters, call `error404` when either is
missing; otherwise `parseFloat` both values and call `error404` when either
is NaN or out of `[-90,90]` / `[-180,180]`, and call `updateWeather`
otherwise. -/
def searchedLocation (query : String) : RouteAction :=
  let params := jsSplit query '&'
  match findParam params "lat=", findParam params "lon=" with
  | none, _ => .error404
  | some _, none => .error404
  | some latParam, some lonParam =>
    let lat := jsParseFloat (paramValue latParam)
    let lon := jsParseFloat (paramValue lonParam)
    if lat.isNaNum || lon.isNaNum || lat.ltQ (-90) || lat.gtQ 90
        || lon.ltQ (-180) || lon.gtQ 180 then
      .error404
    else
      .updateWeather lat lon

/-- The spec-side validity predicate for one coordinate value: the string
parses (by `parseFloat`) as a finite number within `[lo, hi]`. -/
def parsesFiniteInRange (s : String) (lo hi : ℚ) : Prop :=
  ∃ q : ℚ, jsParseFloat s = .fin q ∧ lo ≤ q ∧ q ≤ hi

/-- The geolocation request outcome seen by the `"/current-location"`
handler: the success callback with coordinates, or the error callback. -/
inductive GeoOutcome where
  | success (latitude longitude : ℚ)
  | failure
deriving DecidableEq, Repr

/-- The observable action of the `"/current-location"` handler. -/
inductive CurrentLocAction where
  | updateWeather (lat lon : ℚ)
  | setHash (h : String)
  | error404
deriving DecidableEq, Repr

/-- `defaultLocation` (`route.js` line 12). -/
def defaultLocation : String := "#/weather?lat=28.6139&lon=77.209"

/-- `currentLocation` (`route.js` lines 14–24): on geolocation success call
`updateWeather` with the returned coordinates; on the error callback assign
`window.location.hash` to the fixed fallback location. -/
def currentLocation : GeoOutcome → CurrentLocAction
  | .success la lo => .updateWeather la lo
  | .failure => .setHash defaultLocation

/-- The dispatch decision of `checkHash`: either a registered handler fires
(identified by its route key, receiving the query string), or `error404`. -/
inductive Dispatch where
  | handler (route query : String)
  | error404
deriving DecidableEq, Repr

/-- The keys of the `routes` map (`route.js` lines 46–49). -/
def routeNames : List String := ["/current-location", "/weather"]

/-- `requestURL.includes("?") ? requestURL.split("?") : [requestURL, ""]`
destructured as `[route, query]`, where `requestURL` is the hash without its
leading `#`. -/
def splitHash (hash : String) : String × String :=
  let requestURL := jsSlice1 hash
  if jsIncludesChar requestURL '?' then
    let parts := jsSplit requestURL '?'
    (parts.getD 0 "", parts.getD 1 "")
  else (requestURL, "")

/-- `checkHash` (`route.js` lines 51–55): strip the leading `#`, split route
from query at `?`, and dispatch to the registered handler or `error404`. -/
def checkHash (hash : String) : Dispatch :=
  let rq := splitHash hash
  if routeNames.contains rq.1 then .handler rq.1 rq.2 else .error404

/-- The action of the `load` listener (`route.js` lines 59–65). -/
inductive LoadAction where
  | assignHash (h : String)
  | runCheckHash (d : Dispatch)
deriving DecidableEq, Repr

/-- The `load` listener: when `window.location.hash` is empty (falsy), assign
`#/current-location` (which re-enters via the `hashchange` event); otherwise
run `checkHash` on the existing hash. -/
def onLoad (hash : String) : LoadAction :=
  if hash = "" then .assignHash "#/current-location"
  else .runCheckHash (checkHash hash)

/-! ## app.js: the primary current-weather callback -/

/-- The fields of the primary current-weather payload that decide control
flow: the embedded `cod` status code (JavaScript truthiness: `0` is falsy). -/
structure CurrentWeatherResp where
  cod : ℤ
deriving DecidableEq, Repr

/-- The three secondary fetches `updateWeather` can issue after the primary
current-weather fetch succeeds. -/
inductive SecondaryFetch where
  | reverseGeo
  | airPollution
  | forecast
deriving DecidableEq, Repr

/-- The observable outcome of the primary-fetch callback in `updateWeather`
(`app.js` lines 124–130 and onward): whether `error404` fired, whether the
loading panel was hidden on that error path, and which secondary fetches
were issued. -/
structure PrimaryOutcome where
  errorShown : Bool
  loadingHidden : Bool
  secondaryFetches : List SecondaryFetch
deriving DecidableEq, Repr

/-- The primary callback: `if (currentWeather.cod && currentWeather.cod !==
200)` log, call `error404`, hide loading and return; otherwise build the
current-weather card and issue the reverse-geocode, air-pollution and
forecast fetches. -/
def onCurrentWeather (w : CurrentWeatherResp) : PrimaryOutcome :=
  if w.cod ≠ 0 ∧ w.cod ≠ 200 then
    { errorShown := true, loadingHidden := true, secondaryFetches := [] }
  else
    { errorShown := false, loadingHidden := false,
      secondaryFetches := [.reverseGeo, .airPollution, .forecast] }

/-! ## app.js: the forecast continuation -/

/-- One element of the forecast API's 3-hour-resolution `list`, restricted
to the fields the renderer reads. `new Date(dt_txt)` together with the
day-level arithmetic done on it (`setDate(getDate() + k)`) is modelled by
an integer day number `day`. -/
structure ForecastEntry where
  dt : ℤ
  temp : ℚ
  temp_max : ℚ
  icon : String
  description : String
  windDirection : ℚ
  windSpeed : ℚ
  day : ℤ
deriving DecidableEq, Repr

/-- One column of the hourly slider (the temperature `li` and the wind `li`
share the same displayed timestamp). -/
structure HourCard where
  time : ℤ
  temp : ℚ
  icon : String
  description : String
  windDirection : ℚ
  windSpeed : ℚ
deriving DecidableEq, Repr

/-- The card appended for hour-repetition `i` of a source point: the
displayed timestamp is `dt + i * 3600`. -/
def mkHourCard (e : ForecastEntry) (i : ℕ) : HourCard :=
  { time := e.dt + i * 3600, temp := e.temp, icon := e.icon,
    description := e.description, windDirection := e.windDirection,
    windSpeed := e.windSpeed }

/-- The inner loop `for (let i = 0; i < 3 && hourCount < 24; i++)` of the
hourly section: returns the appended cards and the final `hourCount`. -/
def hourlyInner (e : ForecastEntry) (i hourCount : ℕ) :
    List HourCard × ℕ :=
  if i < 3 ∧ hourCount < 24 then
    let r := hourlyInner e (i + 1) (hourCount + 1)
    (mkHourCard e i :: r.1, r.2)
  else ([], hourCount)
  termination_by 3 - i

/-- The outer loop `for (const [index, data] of forecastList.entries())`
with the `if (hourCount >= 24) break` guard (`app.js` lines 283–327). -/
def hourlyLoop : List ForecastEntry → ℕ → List HourCard
  | [], _ => []
  | e :: rest, hourCount =>
    if 24 ≤ hourCount then []
    else
      let r := hourlyInner e 0 hourCount
      r.1 ++ hourlyLoop rest r.2

/-- The hourly section built by the forecast continuation. -/
def hourlySection (forecastList : List ForecastEntry) : List HourCard :=
  hourlyLoop forecastList 0

/-- One entry of the 7-day forecast card. -/
structure DayCard where
  temp_max : ℚ
  icon : String
  description : String
  day : ℤ
deriving DecidableEq, Repr

/-- The card appended for a real data point in the 7-day loop: the
displayed date is the entry's own date. -/
def mkDayCard (e : ForecastEntry) : DayCard :=
  { temp_max := e.temp_max, icon := e.icon, description := e.description,
    day := e.day }

/-- The card appended by the padding `while` loop at `daysProcessed = d`:
the last data point with its displayed date advanced by `d - 4` days
(`date.setDate(date.getDate() + (daysProcessed - 4))`). -/
def mkPadCard (e : ForecastEntry) (d : ℕ) : DayCard :=
  { temp_max := e.temp_max, icon := e.icon, description := e.description,
    day := e.day + ((d : ℤ) - 4) }

/-- The loop `for (let i = 7; i < len && daysProcessed < 7; i += 8)`
(`app.js` lines 340–364). -/
def forecastDays (l : List ForecastEntry) (i d : ℕ) : List DayCard :=
  if h : i < l.length ∧ d < 7 then
    mkDayCard (l.get ⟨i, h.1⟩) :: forecastDays l (i + 8) (d + 1)
  else []
  termination_by 7 - d

/-- The padding loop `while (daysProcessed < 7)` (`app.js` lines 367–393),
fed the already-read last data point. -/
def forecastPad (lastData : ForecastEntry) (d : ℕ) : List DayCard :=
  if d < 7 then mkPadCard lastData d :: forecastPad lastData (d + 1)
  else []
  termination_by 7 - d

/-- The 7-day section built by the forecast continuation. The padding loop
reads `forecastList[forecastList.length - 1]` and destructures it; on an
empty list that read is `undefined` and the destructuring throws, modelled
by `none`. -/
def sevenDaySection (forecastList : List ForecastEntry) :
    Option (List DayCard) :=
  let real := forecastDays forecastList 7 0
  let daysProcessed := real.length
  if daysProcessed < 7 then
    match forecastList.getLast? with
    | none => none
    | some lastData => some (real ++ forecastPad lastData daysProcessed)
  else some real

/-! ## app.js: visual states -/

/-- The three visual states of the renderer: the loading panel
(`loading.style.display` is `"grid"` rather than `"none"`), the content
(`container` carries the `fade-in` class), and the error panel
(`errorContent.style.display` is `"flex"` rather than `"none"`). -/
structure VisualState where
  loadingShown : Bool
  contentShown : Bool
  errorShown : Bool
deriving DecidableEq, Repr

/-- How many of the three visual states are active. -/
def VisualState.activeCount (s : VisualState) : ℕ :=
  (if s.loadingShown then 1 else 0) + (if s.contentShown then 1 else 0)
    + (if s.errorShown then 1 else 0)

/-- The `updateWeather` entry transition (`app.js` lines 100–103): show the
loading panel, remove `fade-in`, hide the error panel. -/
def entryTransition (_s : VisualState) : VisualState :=
  { loadingShown := true, contentShown := false, errorShown := false }

/-- The `error404` transition (`app.js` line 402): show the error panel; the
other two states are not touched. -/
def error404Transition (s : VisualState) : VisualState :=
  { s with errorShown := true }

/-- The in-pipeline error transition of the primary callback (`app.js`
lines 127–128): `error404()` followed by hiding the loading panel. -/
def primaryErrorTransition (s : VisualState) : VisualState :=
  { error404Transition s with loadingShown := false }

/-- The content transition at the end of the forecast continuation
(`app.js` lines 395–397): hide the loading panel, add `fade-in`; the error
panel is not touched. -/
def contentTransition (s : VisualState) : VisualState :=
  { s with loadingShown := false, contentShown := true }

/-! ## app.js: debounced search -/

/-- The state owned by the search listener: the stored timer handle
(`null` initially; clearing a timer does not reset the variable), and the
visible result/field classes and result markup. -/
structure SearchState where
  searchTimeout : Option ℕ
  resultActive : Bool
  resultHTML : String
  resultSearching : Bool
  fieldSearching : Bool
deriving DecidableEq, Repr

/-- The externally observable effects of the search code: cancelling a
timer, scheduling a timer, and issuing a geocode-search fetch (the fetch
happens only inside the timer callback). -/
inductive SearchEffect where
  | cancelTimer (id : ℕ)
  | scheduleTimer (delayMs id : ℕ)
  | geoFetch (query : String)
deriving DecidableEq, Repr

/-- `searchTimeoutDuration` (`app.js` line 39). -/
def searchTimeoutDuration : ℕ := 500

/-- The `input` listener on the search field (`app.js` lines 41–87):
cancel any stored timer; on an empty field value hide and clear the
results; otherwise mark the field as searching and schedule a
500 ms timer (`newId` models the fresh handle returned by `setTimeout`). -/
def onSearchInput (s : SearchState) (value : String) (newId : ℕ) :
    SearchState × List SearchEffect :=
  let cancelEffects :=
    match s.searchTimeout with
    | some id => [SearchEffect.cancelTimer id]
    | none => []
  if value = "" then
    ({ s with resultActive := false, resultHTML := "",
              resultSearching := false },
      cancelEffects)
  else
    ({ s with fieldSearching := true, searchTimeout := some newId },
      cancelEffects ++ [SearchEffect.scheduleTimer searchTimeoutDuration newId])

/-- The timer callback (`app.js` lines 53–85): read the field value at
expiry time and issue one geocode-search fetch for it. -/
def onSearchTimerFire (valueAtExpiry : String) : List SearchEffect :=
  [SearchEffect.geoFetch valueAtExpiry]

/-- A sample forecast entry used to instantiate universally quantified
theorems on concrete inputs. -/
def sampleEntry : ForecastEntry :=
  { dt := 1700000000, temp := 25, temp_max := 30, icon := "01d",
    description := "clear sky", windDirection := 180, windSpeed := 5,
    day := 20 }

/-! ## Loop characterizations: the 7-day section -/

/-- Element `k` of the real-data loop: present exactly when fewer than 7
entries were taken so far and index `i + 8k` is in range (the loop stops at
the first out-of-range index, and indices increase). -/
theorem forecastDays_getElem? (l : List ForecastEntry) :
    ∀ n i d, 7 - d = n → ∀ k,
      (forecastDays l i d)[k]? =
        if d + k < 7 then (l[i + 8 * k]?).map mkDayCard else none := by
  intro n
  induction n with
  | zero =>
    intro i d hd k
    rw [forecastDays, dif_neg (by omega)]
    rw [if_neg (by omega)]
    simp
  | succ n ih =>
    intro i d hd k
    rw [forecastDays]
    by_cases hc : i < l.length ∧ d < 7
    · rw [dif_pos hc]
      match k with
      | 0 =>
        rw [List.getElem?_cons_zero, if_pos (by omega)]
        rw [show i + 8 * 0 = i by ring, List.getElem?_eq_getElem hc.1]
        rfl
      | k + 1 =>
        rw [List.getElem?_cons_succ, ih (i + 8) (d + 1) (by omega) k]
        rw [show i + 8 + 8 * k = i + 8 * (k + 1) by ring]
        rw [show d + 1 + k = d + (k + 1) by ring]
    · rw [dif_neg hc]
      by_cases h7 : d + k < 7
      · rw [if_pos h7]
        rw [List.getElem?_eq_none_iff.mpr (by omega : l.length ≤ i + 8 * k)]
        simp
      · rw [if_neg h7]
        simp

/-- The real-data loop takes at most `7 - d` entries. -/
theorem forecastDays_length_le (l : List ForecastEntry) (i d : ℕ) :
    (forecastDays l i d).length ≤ 7 - d := by
  have h := forecastDays_getElem? l (7 - d) i d rfl (7 - d)
  rw [if_neg (by omega)] at h
  exact List.getElem?_eq_none_iff.mp h

/-- Element `j` of the padding loop started at `daysProcessed = d`. -/
theorem forecastPad_getElem? (e : ForecastEntry) :
    ∀ n d, 7 - d = n → ∀ j,
      (forecastPad e d)[j]? =
        if d + j < 7 then some (mkPadCard e (d + j)) else none := by
  intro n
  induction n with
  | zero =>
    intro d hd j
    rw [forecastPad, if_neg (by omega), if_neg (by omega)]
    simp
  | succ n ih =>
    intro d hd j
    rw [forecastPad, if_pos (by omega)]
    match j with
    | 0 =>
      rw [List.getElem?_cons_zero, if_pos (by omega)]
      rfl
    | j + 1 =>
      rw [List.getElem?_cons_succ, ih (d + 1) (by omega) j]
      rw [show d + 1 + j = d + (j + 1) by ring]

/-- Length of the padding loop started at `daysProcessed = d`. -/
theorem forecastPad_length (e : ForecastEntry) :
    ∀ n d, 7 - d = n → (forecastPad e d).length = 7 - d := by
  intro n
  induction n with
  | zero =>
    intro d hd
    rw [forecastPad, if_neg (by omega)]
    simp
    omega
  | succ n ih =>
    intro d hd
    rw [forecastPad, if_pos (by omega)]
    rw [List.length_cons, ih (d + 1) (by omega)]
    omega

/-- C10: the forecast continuation's 7-day section is total exactly for
non-empty forecast lists: on the empty list the padding loop reads
`forecastList[forecastList.length - 1]` (which is `undefined`) and
destructures it, reaching the crash branch (`none`) instead of rendering
seven synthesized entries or an error state; on any non-empty list it
produces a result. -/
theorem sevenDaySection_empty_crashes :
    sevenDaySection ([] : List ForecastEntry) = none ∧
    ∀ l : List ForecastEntry, l ≠ [] → (sevenDaySection l).isSome = true := by
  constructor
  · simp only [sevenDaySection]
    rw [forecastDays, dif_neg (by simp)]
    rfl
  · intro l hl
    simp only [sevenDaySection]
    by_cases h7 : (forecastDays l 7 0).length < 7
    · rw [if_pos h7]
      cases hgl : l.getLast? with
      | none => exact absurd (List.getLast?_eq_none_iff.mp hgl) hl
      | some e => rfl
    · rw [if_neg h7]
      rfl

/-- Witness for C10 at a concrete non-empty list. -/
theorem sevenDaySection_empty_crashes_witness :
    (sevenDaySection [sampleEntry]).isSome = true :=
  sevenDaySection_empty_crashes.2 [sampleEntry] (by simp)

/-- Counterexample to C3 as stated: the empty forecast list has fewer than
63 entries, yet the 7-day section does not contain 7 entries — the
continuation crashes (`none`). -/
theorem sevenDaySection_empty_counterexample :
    ([] : List ForecastEntry).length < 63 ∧
      ¬ ∃ out, sevenDaySection ([] : List ForecastEntry) = some out := by
  refine ⟨by simp, ?_⟩
  rintro ⟨out, hout⟩
  rw [show sevenDaySection ([] : List ForecastEntry) = none from ?_] at hout
  · exact Option.noConfusion hout
  · simp only [sevenDaySection]
    rw [forecastDays, dif_neg (by simp)]
    rfl

/-- C3 (amended to non-empty lists): for every non-empty forecast list with
fewer than 63 entries, the 7-day section contains exactly 7 entries; entry
`k` is the real data point at index `7 + 8k` when that index is in range,
and otherwise is synthesized from the last element of the list with the
displayed date offset by `daysProcessed - 4` days (`daysProcessed = k`). -/
theorem sevenDaySection_short_list (l : List ForecastEntry) (h0 : l ≠ [])
    (_h63 : l.length < 63) :
    ∃ out, sevenDaySection l = some out ∧ out.length = 7 ∧
      ∀ k, k < 7 →
        out[k]? = if 7 + 8 * k < l.length
          then (l[7 + 8 * k]?).map mkDayCard
          else l.getLast?.map (fun e => mkPadCard e k) := by
  obtain ⟨lastE, hlast⟩ : ∃ e, l.getLast? = some e := by
    cases hgl : l.getLast? with
    | none => exact absurd (List.getLast?_eq_none_iff.mp hgl) h0
    | some e => exact ⟨e, rfl⟩
  have hrlen : (forecastDays l 7 0).length ≤ 7 := by
    simpa using forecastDays_length_le l 7 0
  have hrget : ∀ k, (forecastDays l 7 0)[k]? =
      if 0 + k < 7 then (l[7 + 8 * k]?).map mkDayCard else none :=
    forecastDays_getElem? l 7 7 0 rfl
  by_cases hr7 : (forecastDays l 7 0).length < 7
  · refine ⟨forecastDays l 7 0 ++ forecastPad lastE (forecastDays l 7 0).length,
      ?_, ?_, ?_⟩
    · simp only [sevenDaySection]
      rw [if_pos hr7, hlast]
    · rw [List.length_append,
        forecastPad_length lastE (7 - (forecastDays l 7 0).length) _ rfl]
      omega
    · intro k hk
      by_cases hkr : k < (forecastDays l 7 0).length
      · rw [List.getElem?_append_left hkr]
        have h := hrget k
        rw [if_pos (by omega)] at h
        have hk7 : 7 + 8 * k < l.length := by
          by_contra hno
          rw [show l[7 + 8 * k]? = none from
            List.getElem?_eq_none_iff.mpr (by omega)] at h
          rw [List.getElem?_eq_getElem hkr] at h
          simp at h
        rw [if_pos hk7]
        exact h
      · rw [List.getElem?_append_right (by omega)]
        rw [forecastPad_getElem? lastE (7 - (forecastDays l 7 0).length) _ rfl]
        rw [if_pos (by omega)]
        rw [show (forecastDays l 7 0).length + (k - (forecastDays l 7 0).length)
            = k by omega]
        have h := hrget k
        rw [if_pos (by omega)] at h
        rw [List.getElem?_eq_none_iff.mpr (by omega)] at h
        have hnone : l[7 + 8 * k]? = none := by
          cases hx : l[7 + 8 * k]? with
          | none => rfl
          | some v => rw [hx] at h; simp at h
        rw [if_neg (by
          intro hlt
          rw [List.getElem?_eq_none_iff] at hnone
          omega)]
        rw [hlast]
        rfl
  · have hr : (forecastDays l 7 0).length = 7 := by omega
    refine ⟨forecastDays l 7 0, ?_, hr, ?_⟩
    · simp only [sevenDaySection]
      rw [if_neg hr7]
    · intro k hk
      have h := hrget k
      rw [if_pos (by omega)] at h
      have hk7 : 7 + 8 * k < l.length := by
        by_contra hno
        rw [show l[7 + 8 * k]? = none from
          List.getElem?_eq_none_iff.mpr (by omega)] at h
        rw [List.getElem?_eq_getElem (by omega : k < (forecastDays l 7 0).length)]
          at h
        simp at h
      rw [if_pos hk7]
      exact h

/-- Witness for C3 (amended) at a concrete 10-element list. -/
theorem sevenDaySection_short_list_witness :
    ∃ out, sevenDaySection (List.replicate 10 sampleEntry) = some out ∧
      out.length = 7 ∧
      ∀ k, k < 7 →
        out[k]? = if 7 + 8 * k < (List.replicate 10 sampleEntry).length
          then ((List.replicate 10 sampleEntry)[7 + 8 * k]?).map mkDayCard
          else (List.replicate 10 sampleEntry).getLast?.map
            (fun e => mkPadCard e k) :=
  sevenDaySection_short_list (List.replicate 10 sampleEntry) (by simp) (by simp)

/-! ## Loop characterizations: the hourly section -/

/-- The inner hour loop emits `min (3 - i) (24 - hourCount)` cards, hour
repetition `j` being the source point with its timestamp advanced by
`i + j` simulated hours, and leaves `hourCount` increased accordingly. -/
theorem hourlyInner_spec (e : ForecastEntry) :
    ∀ n i hc, 3 - i = n →
      (hourlyInner e i hc).1 = (List.range (min (3 - i) (24 - hc))).map
          (fun j => mkHourCard e (i + j)) ∧
      (hourlyInner e i hc).2 = hc + min (3 - i) (24 - hc) := by
  intro n
  induction n with
  | zero =>
    intro i hc h
    rw [hourlyInner, if_neg (by omega)]
    rw [show min (3 - i) (24 - hc) = 0 by omega]
    simp
  | succ n ih =>
    intro i hc h
    rw [hourlyInner]
    by_cases hcnd : i < 3 ∧ hc < 24
    · rw [if_pos hcnd]
      obtain ⟨ih1, ih2⟩ := ih (i + 1) (hc + 1) (by omega)
      refine ⟨?_, by simpa using by rw [ih2]; omega⟩
      simp only [ih1]
      rw [show min (3 - i) (24 - hc) = min (3 - (i + 1)) (24 - (hc + 1)) + 1
        by omega]
      rw [List.range_succ_eq_map, List.map_cons, List.map_map]
      refine congrArg₂ _ (by rw [Nat.add_zero]) ?_
      apply List.map_congr_left
      intro j _
      simp only [Function.comp_apply]
      rw [show i + 1 + j = i + (j + 1) by ring]
    · rw [if_neg hcnd]
      rw [show min (3 - i) (24 - hc) = 0 by omega]
      simp

/-- Element `m` of the outer hourly loop started at `hourCount = hc`:
present exactly below the `min (24 - hc) (3·length)` cap, and equal to
source point `m / 3` with its timestamp advanced by `m % 3` hours. -/
theorem hourlyLoop_getElem? :
    ∀ (l : List ForecastEntry) (hc m : ℕ),
      (hourlyLoop l hc)[m]? =
        if m < min (24 - hc) (3 * l.length)
        then (l[m / 3]?).map (fun e => mkHourCard e (m % 3)) else none := by
  intro l
  induction l with
  | nil =>
    intro hc m
    simp [hourlyLoop]
  | cons e rest ih =>
    intro hc m
    rw [hourlyLoop]
    by_cases h24 : 24 ≤ hc
    · rw [if_pos h24, if_neg (by omega)]
      simp
    · rw [if_neg h24]
      obtain ⟨h1, h2⟩ := hourlyInner_spec e 3 0 hc rfl
      simp only [h1, h2, Nat.sub_zero, Nat.zero_add]
      by_cases hm : m < min 3 (24 - hc)
      · rw [List.getElem?_append_left (by simpa using hm)]
        rw [List.getElem?_map, List.getElem?_range hm]
        rw [if_pos (by
          have h3 : 3 ≤ 3 * (rest.length + 1) := by omega
          simp only [List.length_cons]
          omega)]
        rw [show m / 3 = 0 by omega, show m % 3 = m by omega]
        rw [List.getElem?_cons_zero]
        rfl
      · rw [List.getElem?_append_right
          (by simp only [List.length_map, List.length_range]; omega)]
        rw [List.length_map, List.length_range]
        rw [ih (hc + min 3 (24 - hc)) (m - min 3 (24 - hc))]
        by_cases hcc : 3 ≤ 24 - hc
        · rw [show min 3 (24 - hc) = 3 by omega] at *
          by_cases hfin : m - 3 < min (24 - (hc + 3)) (3 * rest.length)
          · rw [if_pos hfin]
            rw [if_pos (by simp only [List.length_cons]; omega)]
            rw [show (m - 3) / 3 = m / 3 - 1 by omega,
              show (m - 3) % 3 = m % 3 by omega]
            obtain ⟨t, ht⟩ : ∃ t, m / 3 = t + 1 := ⟨m / 3 - 1, by omega⟩
            rw [ht, List.getElem?_cons_succ, show t + 1 - 1 = t by omega]
          · rw [if_neg hfin]
            rw [if_neg (by simp only [List.length_cons]; omega)]
        · rw [show min 3 (24 - hc) = 24 - hc by omega] at *
          rw [if_neg (by omega)]
          rw [if_neg (by simp only [List.length_cons]; omega)]

/-- Length of the outer hourly loop. -/
theorem hourlyLoop_length :
    ∀ (l : List ForecastEntry) (hc : ℕ),
      (hourlyLoop l hc).length = min (24 - hc) (3 * l.length) := by
  intro l
  induction l with
  | nil =>
    intro hc
    simp [hourlyLoop]
  | cons e rest ih =>
    intro hc
    rw [hourlyLoop]
    by_cases h24 : 24 ≤ hc
    · rw [if_pos h24]
      simp only [List.length_nil, List.length_cons]
      omega
    · rw [if_neg h24]
      obtain ⟨h1, h2⟩ := hourlyInner_spec e 3 0 hc rfl
      simp only [h1, h2, Nat.sub_zero, Nat.zero_add]
      rw [List.length_append, List.length_map, List.length_range, ih]
      simp only [List.length_cons]
      omega

/-- C4: for a forecast list whose source points are spaced 3 hours
(10800 s) apart, the hourly section has exactly `min 24 (3·length)`
entries; entry `m` is source point `m / 3` repeated with its displayed
timestamp advanced by `m % 3` simulated hours; and each successive
displayed timestamp is exactly 3600 seconds after the previous one. -/
theorem hourlySection_claim (l : List ForecastEntry)
    (hsp : l.Chain' (fun a b => b.dt = a.dt + 10800)) :
    (hourlySection l).length = min 24 (3 * l.length) ∧
    (∀ m, (hourlySection l)[m]? =
      if m < min 24 (3 * l.length)
      then (l[m / 3]?).map (fun e => mkHourCard e (m % 3)) else none) ∧
    (∀ m c c', (hourlySection l)[m]? = some c →
      (hourlySection l)[m + 1]? = some c' → c'.time = c.time + 3600) := by
  refine ⟨by simpa using hourlyLoop_length l 0,
    fun m => by simpa using hourlyLoop_getElem? l 0 m, ?_⟩
  intro m c c' hc hc'
  unfold hourlySection at hc hc'
  rw [hourlyLoop_getElem?] at hc hc'
  by_cases h1 : m < min (24 - 0) (3 * l.length)
  case neg => rw [if_neg h1] at hc; exact absurd hc (by simp)
  by_cases h2 : m + 1 < min (24 - 0) (3 * l.length)
  case neg => rw [if_neg h2] at hc'; exact absurd hc' (by simp)
  rw [if_pos h1] at hc
  rw [if_pos h2] at hc'
  cases he1 : l[m / 3]? with
  | none => rw [he1] at hc; exact absurd hc (by simp)
  | some e1 =>
  cases he2 : l[(m + 1) / 3]? with
  | none => rw [he2] at hc'; exact absurd hc' (by simp)
  | some e2 =>
  rw [he1] at hc
  rw [he2] at hc'
  simp only [Option.map_some', Option.some.injEq] at hc hc'
  subst hc
  subst hc'
  by_cases hmod : m % 3 ≤ 1
  · have hidx : (m + 1) / 3 = m / 3 := by omega
    rw [hidx, he1] at he2
    cases he2
    simp only [mkHourCard]
    rw [show (m + 1) % 3 = m % 3 + 1 by omega]
    push_cast
    ring
  · have hidx : (m + 1) / 3 = m / 3 + 1 := by omega
    rw [hidx] at he2
    have hm3 : m / 3 < l.length := by omega
    have hb1 : m / 3 + 1 < l.length := by
      rw [← hidx]
      omega
    have hR := List.chain'_iff_get.mp hsp (m / 3) (by omega)
    have he1g : e1 = l.get ⟨m / 3, hm3⟩ := by
      apply Option.some.inj
      rw [← he1, List.get_eq_getElem, List.getElem?_eq_getElem hm3]
    have he2g : e2 = l.get ⟨m / 3 + 1, hb1⟩ := by
      apply Option.some.inj
      rw [← he2, List.get_eq_getElem, List.getElem?_eq_getElem hb1]
    simp only [mkHourCard, he1g, he2g, hR]
    push_cast
    omega

/-- Witness for C4 at a concrete two-point list spaced 10800 s apart. -/
theorem hourlySection_claim_witness :
    (hourlySection [sampleEntry,
        { sampleEntry with dt := sampleEntry.dt + 10800 }]).length
      = min 24 (3 * 2) := by
  have h := hourlySection_claim
    [sampleEntry, { sampleEntry with dt := sampleEntry.dt + 10800 }]
    (by simp [List.chain'_cons])
  simpa using h.1

/-! ## Claims about route.js -/

/-- When a coordinate string does not parse as a finite number within
`[lo, hi]`, the validation check of `searchedLocation` fires. -/
theorem check_of_not_inRange {s : String} {lo hi : ℚ}
    (h : ¬ parsesFiniteInRange s lo hi) :
    ((jsParseFloat s).isNaNum || (jsParseFloat s).ltQ lo
      || (jsParseFloat s).gtQ hi) = true := by
  cases hjs : jsParseFloat s with
  | nan => rfl
  | posInf => rfl
  | negInf => rfl
  | fin q =>
    simp only [JSNum.isNaNum, JSNum.ltQ, JSNum.gtQ, Bool.false_or,
      Bool.or_eq_true, decide_eq_true_eq]
    by_contra hc
    push_neg at hc
    exact h ⟨q, hjs, hc.1, hc.2⟩

/-- C1: every query string that is missing a `lat=` or `lon=` parameter, or
whose `lat` value does not parse as a finite number in `[-90, 90]`, or whose
`lon` value does not parse as a finite number in `[-180, 180]`, makes
`searchedLocation` call `error404` and never `updateWeather`, so no fetch is
issued. -/
theorem searchedLocation_invalid_query_errors (query : String)
    (h : findParam (jsSplit query '&') "lat=" = none
       ∨ findParam (jsSplit query '&') "lon=" = none
       ∨ (∀ latParam, findParam (jsSplit query '&') "lat=" = some latParam →
           ¬ parsesFiniteInRange (paramValue latParam) (-90) 90)
       ∨ (∀ lonParam, findParam (jsSplit query '&') "lon=" = some lonParam →
           ¬ parsesFiniteInRange (paramValue lonParam) (-180) 180)) :
    searchedLocation query = .error404 ∧
      (searchedLocation query).issuesFetch = false := by
  suffices hs : searchedLocation query = .error404 from ⟨hs, by rw [hs]; rfl⟩
  cases hlat : findParam (jsSplit query '&') "lat=" with
  | none => simp only [searchedLocation, hlat]
  | some latP =>
    cases hlon : findParam (jsSplit query '&') "lon=" with
    | none => simp only [searchedLocation, hlat, hlon]
    | some lonP =>
      rcases h with h | h | h | h
      · rw [hlat] at h
        exact absurd h (by simp)
      · rw [hlon] at h
        exact absurd h (by simp)
      · have hc := check_of_not_inRange (h latP hlat)
        simp only [searchedLocation, hlat, hlon]
        simp only [Bool.or_eq_true] at hc
        rcases hc with (h1 | h1) | h1 <;> simp [h1]
      · have hc := check_of_not_inRange (h lonP hlon)
        simp only [searchedLocation, hlat, hlon]
        simp only [Bool.or_eq_true] at hc
        rcases hc with (h1 | h1) | h1 <;> simp [h1]

/-- Witness for C1 on the spec's end-to-end example query
`lat=999&lon=0`. -/
theorem searchedLocation_invalid_query_errors_witness :
    searchedLocation "lat=999&lon=0" = .error404 ∧
      (searchedLocation "lat=999&lon=0").issuesFetch = false := by
  apply searchedLocation_invalid_query_errors
  right; right; left
  intro latParam hfind
  have hfind999 : findParam (jsSplit "lat=999&lon=0" '&') "lat="
      = some "lat=999" := by decide
  rw [hfind999] at hfind
  cases hfind
  rintro ⟨q, hq, _, hle⟩
  have h999 : jsParseFloat (paramValue "lat=999") = .fin 999 := by decide
  rw [h999] at hq
  cases hq
  norm_num at hle

/-! ## Claims about the primary callback (app.js) -/

/-- Counterexample to C2 as stated: a primary response with embedded
`cod = 0` is not equal to 200, yet the guard `currentWeather.cod &&
currentWeather.cod !== 200` is falsy (`0` is falsy in JavaScript), so the
callback does not enter the error state and issues all three secondary
fetches. -/
theorem onCurrentWeather_cod_zero_counterexample :
    (0 : ℤ) ≠ 200 ∧
      onCurrentWeather { cod := 0 } =
        { errorShown := false, loadingHidden := false,
          secondaryFetches := [.reverseGeo, .airPollution, .forecast] } := by
  exact ⟨by decide, rfl⟩

/-- C2 (amended to truthy `cod`): for every primary current-weather
response whose embedded `cod` is truthy (non-zero) and not equal to 200,
the callback invokes `error404`, hides the loading panel, and issues none
of the three secondary fetches. -/
theorem onCurrentWeather_truthy_non200_errors (w : CurrentWeatherResp)
    (h0 : w.cod ≠ 0) (h200 : w.cod ≠ 200) :
    onCurrentWeather w =
      { errorShown := true, loadingHidden := true, secondaryFetches := [] } := by
  simp [onCurrentWeather, h0, h200]

/-- Witness for C2 (amended) at `cod = 404`. -/
theorem onCurrentWeather_truthy_non200_errors_witness :
    onCurrentWeather { cod := 404 } =
      { errorShown := true, loadingHidden := true, secondaryFetches := [] } :=
  onCurrentWeather_truthy_non200_errors { cod := 404 } (by decide) (by decide)

/-! ## Claim C5: checkHash dispatch -/

/-- C5: for every hash, when the part before any `?` is a registered route
name (`/current-location` or `/weather`) exactly that one handler fires
(with the query part); otherwise `error404` fires and no registered handler
does. -/
theorem checkHash_dispatch (hash : String) :
    ((splitHash hash).1 = "/current-location" ∨ (splitHash hash).1 = "/weather" →
      checkHash hash = .handler (splitHash hash).1 (splitHash hash).2) ∧
    ((splitHash hash).1 ≠ "/current-location" ∧ (splitHash hash).1 ≠ "/weather" →
      checkHash hash = .error404) := by
  constructor
  · rintro (h | h) <;> simp [checkHash, routeNames, h]
  · rintro ⟨h1, h2⟩
    simp [checkHash, routeNames, h1, h2]

/-- Witness for C5 on a recognized and an unrecognized hash. -/
theorem checkHash_dispatch_witness :
    checkHash "#/weather?lat=1" = .handler "/weather" "lat=1" ∧
      checkHash "#/bogus" = .error404 := by
  constructor
  · have h := (checkHash_dispatch "#/weather?lat=1").1 (by right; decide)
    exact h.trans (by decide)
  · exact (checkHash_dispatch "#/bogus").2 (by decide)

/-! ## Claim C7: initial load -/

/-- C7: on the load event, an entirely empty hash triggers the assignment
`window.location.hash = "#/current-location"` (re-entering via the
hash-change handler) rather than a direct `checkHash` call; a non-empty
hash runs `checkHash` on the existing hash. -/
theorem onLoad_spec (hash : String) :
    (hash = "" → onLoad hash = .assignHash "#/current-location") ∧
    (hash ≠ "" → onLoad hash = .runCheckHash (checkHash hash)) := by
  constructor <;> intro h <;> simp [onLoad, h]

/-- Witness for C7 on the empty hash and on a concrete non-empty hash. -/
theorem onLoad_spec_witness :
    onLoad "" = .assignHash "#/current-location" ∧
      onLoad "#/weather?lat=1&lon=2"
        = .runCheckHash (checkHash "#/weather?lat=1&lon=2") :=
  ⟨(onLoad_spec "").1 rfl, (onLoad_spec "#/weather?lat=1&lon=2").2 (by decide)⟩

/-! ## Claim C8: current-location fallback -/

/-- C8: on every geolocation failure the `"/current-location"` handler
assigns the hash to the fixed fallback location
`#/weather?lat=28.6139&lon=77.209` and does not invoke the error handler;
on success it calls `updateWeather` with the returned coordinates. -/
theorem currentLocation_spec (r : GeoOutcome) :
    (r = .failure →
      currentLocation r = .setHash "#/weather?lat=28.6139&lon=77.209" ∧
        currentLocation r ≠ .error404) ∧
    (∀ la lo, r = .success la lo → currentLocation r = .updateWeather la lo) := by
  constructor
  · rintro rfl
    exact ⟨rfl, by simp [currentLocation, defaultLocation]⟩
  · rintro la lo rfl
    rfl

/-- Witness for C8 on both geolocation outcomes. -/
theorem currentLocation_spec_witness :
    currentLocation .failure = .setHash "#/weather?lat=28.6139&lon=77.209" ∧
      currentLocation (.success 51 0) = .updateWeather 51 0 :=
  ⟨((currentLocation_spec .failure).1 rfl).1,
    (currentLocation_spec (.success 51 0)).2 51 0 rfl⟩

/-! ## Claim C9: search debounce -/

/-- C9: on every input event, a stored debounce timer is cancelled first;
an empty field value clears and hides the results immediately and schedules
no timer and no fetch; a non-empty value schedules exactly one 500 ms timer
(stored as the new handle) whose expiry issues exactly one geocode-search
fetch for the field value read at expiry. -/
theorem onSearchInput_spec (s : SearchState) (value : String) (newId : ℕ) :
    (∀ tid, s.searchTimeout = some tid →
      (onSearchInput s value newId).2.head? = some (.cancelTimer tid)) ∧
    (value = "" →
      (onSearchInput s value newId).1.resultActive = false ∧
      (onSearchInput s value newId).1.resultHTML = "" ∧
      (∀ d i, SearchEffect.scheduleTimer d i ∉ (onSearchInput s value newId).2) ∧
      (∀ q, SearchEffect.geoFetch q ∉ (onSearchInput s value newId).2)) ∧
    (value ≠ "" →
      (onSearchInput s value newId).2.count
          (SearchEffect.scheduleTimer searchTimeoutDuration newId) = 1 ∧
      (∀ d i, SearchEffect.scheduleTimer d i ∈ (onSearchInput s value newId).2 →
        d = searchTimeoutDuration ∧ i = newId) ∧
      (onSearchInput s value newId).1.searchTimeout = some newId ∧
      onSearchTimerFire value = [.geoFetch value]) := by
  refine ⟨?_, ?_, ?_⟩
  · intro tid htid
    by_cases hv : value = ""
    · simp [onSearchInput, htid, hv]
    · simp [onSearchInput, htid, hv]
  · intro hv
    cases hst : s.searchTimeout with
    | none =>
      refine ⟨by simp [onSearchInput, hv], by simp [onSearchInput, hv], ?_, ?_⟩
      · intro d i
        simp [onSearchInput, hv, hst]
      · intro q
        simp [onSearchInput, hv, hst]
    | some tid =>
      refine ⟨by simp [onSearchInput, hv], by simp [onSearchInput, hv], ?_, ?_⟩
      · intro d i
        simp [onSearchInput, hv, hst]
      · intro q
        simp [onSearchInput, hv, hst]
  · intro hv
    cases hst : s.searchTimeout with
    | none =>
      refine ⟨by simp [onSearchInput, hv, hst], ?_,
        by simp [onSearchInput, hv, hst], rfl⟩
      intro d i hmem
      simp [onSearchInput, hv, hst] at hmem
      omega
    | some tid =>
      refine ⟨by simp [onSearchInput, hv, hst], ?_,
        by simp [onSearchInput, hv, hst], rfl⟩
      intro d i hmem
      simp [onSearchInput, hv, hst] at hmem
      omega

/-- Witness for C9: a pending timer is cancelled, the empty value clears
the results, and a non-empty value schedules the 500 ms timer. -/
theorem onSearchInput_spec_witness :
    (onSearchInput ⟨some 3, true, "old", true, false⟩ "pune" 9).2.head?
        = some (.cancelTimer 3) ∧
      (onSearchInput ⟨some 3, true, "old", true, false⟩ "" 9).1.resultActive
        = false ∧
      (onSearchInput ⟨none, false, "", false, false⟩ "pune" 9).2.count
        (SearchEffect.scheduleTimer searchTimeoutDuration 9) = 1 := by
  refine ⟨?_, ?_, ?_⟩
  · exact (onSearchInput_spec ⟨some 3, true, "old", true, false⟩ "pune" 9).1
      3 rfl
  · exact ((onSearchInput_spec ⟨some 3, true, "old", true, false⟩ "" 9).2.1
      rfl).1
  · exact ((onSearchInput_spec ⟨none, false, "", false, false⟩ "pune" 9).2.2
      (by decide)).1

/-! ## Claim C6: visual-state invariant -/

/-- Counterexample to C6 as stated: from a content-showing state, the bare
`error404` transition (which only sets the error panel's display) leaves
two visual states active — it does not clear the other two. -/
theorem error404Transition_counterexample :
    VisualState.activeCount
        { loadingShown := false, contentShown := true, errorShown := false }
      = 1 ∧
    VisualState.activeCount (error404Transition
        { loadingShown := false, contentShown := true, errorShown := false })
      ≠ 1 := by
  exact ⟨rfl, by decide⟩

/-- C6 (amended): the `updateWeather` entry transition always leaves exactly
the loading state active, and the two transitions that can follow it in the
pipeline — the primary-error transition (`error404` plus hiding the loading
panel) and the content transition at the end of the forecast continuation —
each leave exactly one visual state active; a bare `error404`, however, does
not clear the other two states. -/
theorem renderer_pipeline_exactly_one_active (s : VisualState) :
    (entryTransition s).activeCount = 1 ∧
    (primaryErrorTransition (entryTransition s)).activeCount = 1 ∧
    (contentTransition (entryTransition s)).activeCount = 1 :=
  ⟨rfl, rfl, rfl⟩

end Weather
